import Mathlib

/-!
Shallow embedding of the job-lifecycle and credit-ledger core of the
`sm_up_api` repository, together with theorems checking the natural-language
specification against it.

The Python sources embedded here are:
* `app/services/credit_service.py` (`CreditService.calculate_cost`,
  `check_and_reserve_credits`, `refund_credits`, `add_credits`),
* `app/services/image_service.py` (`ImageService.update_job_status`,
  `queue_processing_job`),
* `app/api/v1/endpoints/images.py` (`cancel_job`),
* `app/workers/image_worker.py` (`process_images_task`).

Database rows (`User`, `CreditTransaction`, `ProcessingJob` from
`app.models.database`) are embedded as structures holding exactly the fields
the services read and write; SQLAlchemy sessions become explicit state
passing over lists of rows.  Python `int` is embedded as `Int`, `float`
values that enter exact comparisons as `ℚ`, `None`-able values as `Option`.
-/

namespace SmUp

/-- Row of the `users` table (`app.models.database.User`): the fields read and
written by `CreditService`. -/
structure User where
  id : String
  credits_balance : Int
  total_credits_used : Int
  total_credits_purchased : Int
deriving Repr, DecidableEq

/-- Row of the `credit_transactions` table (`app.models.database.CreditTransaction`):
the fields written by `CreditService`. -/
structure CreditTransaction where
  user_id : String
  amount : Int
  transaction_type : String
  description : String
  balance_before : Int
  balance_after : Int
  payment_id : Option String := none
  payment_method : Option String := none
  payment_status : Option String := none
deriving Repr, DecidableEq

/-- The credit-side database state: users plus the append-only transaction log. -/
structure CreditDB where
  users : List User
  transactions : List CreditTransaction
deriving Repr, DecidableEq

/-- `db.query(User).filter(User.id == user_id).first()` over a list of rows. -/
def findUserL : List User → String → Option User
  | [], _ => none
  | u :: rest, uid => if u.id == uid then some u else findUserL rest uid

/-- Look a user up in the database state. -/
def findUser (db : CreditDB) (uid : String) : Option User :=
  findUserL db.users uid

/-- Persist an ORM-style in-place mutation of one user row: every row with the
mutated row's primary key is replaced by the mutated row. -/
def replaceUser (l : List User) (u' : User) : List User :=
  l.map (fun v => if v.id == u'.id then u' else v)

/-- `CreditService.check_and_reserve_credits` (credit_service.py, lines 88-135):
fails when the user is missing or `credits_balance < required_credits`;
otherwise debits the balance, increments `total_credits_used`, and appends a
`usage` transaction. -/
def check_and_reserve_credits (db : CreditDB) (user_id : String) (required_credits : Int) :
    Bool × CreditDB :=
  match findUser db user_id with
  | none => (false, db)
  | some user =>
    if user.credits_balance < required_credits then
      (false, db)
    else
      let balance_before := user.credits_balance
      let user' := { user with
        credits_balance := user.credits_balance - required_credits,
        total_credits_used := user.total_credits_used + required_credits }
      let tx : CreditTransaction :=
        { user_id := user.id
          amount := -required_credits
          transaction_type := "usage"
          description := "Credits reserved for image processing"
          balance_before := balance_before
          balance_after := user'.credits_balance }
      (true, { users := replaceUser db.users user',
               transactions := db.transactions ++ [tx] })

/-- `CreditService.refund_credits` (credit_service.py, lines 137-180):
unconditionally credits the balance by `amount`, decrements
`total_credits_used`, and appends a `refund` transaction whose description is
the caller-supplied reason.  There is no idempotency key and no check against
the job's original reservation. -/
def refund_credits (db : CreditDB) (user_id : String) (amount : Int) (reason : String) :
    Bool × CreditDB :=
  match findUser db user_id with
  | none => (false, db)
  | some user =>
    let balance_before := user.credits_balance
    let user' := { user with
      credits_balance := user.credits_balance + amount,
      total_credits_used := user.total_credits_used - amount }
    let tx : CreditTransaction :=
      { user_id := user.id
        amount := amount
        transaction_type := "refund"
        description := reason
        balance_before := balance_before
        balance_after := user'.credits_balance }
    (true, { users := replaceUser db.users user',
             transactions := db.transactions ++ [tx] })

/-- `CreditService.add_credits` (credit_service.py, lines 182-229): credits the
balance, increments `total_credits_purchased`, appends a `purchase`
transaction.  `payment_method or 'unknown'` treats `None` and `""` as absent. -/
def add_credits (db : CreditDB) (user_id : String) (amount : Int)
    (payment_id : Option String) (payment_method : Option String) :
    Bool × CreditDB :=
  match findUser db user_id with
  | none => (false, db)
  | some user =>
    let balance_before := user.credits_balance
    let user' := { user with
      credits_balance := user.credits_balance + amount,
      total_credits_purchased := user.total_credits_purchased + amount }
    let method_name :=
      match payment_method with
      | some s => if s == "" then "unknown" else s
      | none => "unknown"
    let tx : CreditTransaction :=
      { user_id := user.id
        amount := amount
        transaction_type := "purchase"
        description := "Credits purchased via " ++ method_name
        balance_before := balance_before
        balance_after := user'.credits_balance
        payment_id := payment_id
        payment_method := payment_method
        payment_status := some "completed" }
    (true, { users := replaceUser db.users user',
             transactions := db.transactions ++ [tx] })

/-- Row of the `processing_jobs` table (`app.models.database.ProcessingJob`):
the fields read and written by `ImageService`, the cancel endpoint and the
worker.  Timestamps are abstract ticks (`Nat`). -/
structure ProcessingJob where
  id : String
  user_id : String
  job_operation : String
  status : String
  progress : Int
  credits_used : Int
  error_message : Option String := none
  output_images : Option (List String) := none
  processing_time_seconds : Option ℚ := none
  started_at : Option Nat := none
  completed_at : Option Nat := none
  updated_at : Option Nat := none
deriving Repr, DecidableEq

/-- `db.query(ProcessingJob).filter(ProcessingJob.id == job_id).first()`. -/
def findJobL : List ProcessingJob → String → Option ProcessingJob
  | [], _ => none
  | j :: rest, jid => if j.id == jid then some j else findJobL rest jid

/-- `db.query(ProcessingJob).filter(ProcessingJob.id == job_id,
ProcessingJob.user_id == user_id).first()`. -/
def findJobUL : List ProcessingJob → String → String → Option ProcessingJob
  | [], _, _ => none
  | j :: rest, jid, uid =>
    if j.id == jid && j.user_id == uid then some j else findJobUL rest jid uid

/-- Persist an ORM-style in-place mutation of one job row. -/
def replaceJob (l : List ProcessingJob) (j' : ProcessingJob) : List ProcessingJob :=
  l.map (fun j => if j.id == j'.id then j' else j)

/-- `job.status = status; job.updated_at = now` (image_service.py, lines 127-128). -/
def stepStatus (job : ProcessingJob) (status : String) (now : Nat) : ProcessingJob :=
  { job with status := status, updated_at := some now }

/-- `if progress is not None: job.progress = progress` (lines 130-131). -/
def stepProgress (job : ProcessingJob) (progress : Option Int) : ProcessingJob :=
  match progress with
  | some p => { job with progress := p }
  | none => job

/-- `if status == "processing" and not job.started_at: ...` (lines 133-134). -/
def stepStarted (job : ProcessingJob) (status : String) (now : Nat) : ProcessingJob :=
  if status == "processing" && job.started_at.isNone then
    { job with started_at := some now }
  else job

/-- `if status in ["completed", "failed"]: ...` (lines 136-138): sets the
completion timestamp and forces progress to 100 only for `completed`. -/
def stepTerminal (job : ProcessingJob) (status : String) (now : Nat) : ProcessingJob :=
  if status == "completed" || status == "failed" then
    { job with completed_at := some now,
               progress := if status == "completed" then 100 else job.progress }
  else job

/-- `if error_message: job.error_message = error_message` (lines 140-141);
`""` is falsy like `None`. -/
def stepError (job : ProcessingJob) (error_message : Option String) : ProcessingJob :=
  match error_message with
  | some s => if s == "" then job else { job with error_message := some s }
  | none => job

/-- `if output_images: job.output_images = output_images` (lines 143-144);
`[]` is falsy like `None`. -/
def stepOutputs (job : ProcessingJob) (output_images : Option (List String)) : ProcessingJob :=
  match output_images with
  | some l => if l.isEmpty then job else { job with output_images := some l }
  | none => job

/-- `if processing_time: job.processing_time_seconds = processing_time`
(lines 146-147); `0` is falsy like `None`. -/
def stepTime (job : ProcessingJob) (processing_time : Option ℚ) : ProcessingJob :=
  match processing_time with
  | some t => if t == 0 then job else { job with processing_time_seconds := some t }
  | none => job

/-- The field mutations of `ImageService.update_job_status`
(image_service.py, lines 101-154), applied to the job row that was found, in
the order of the source: status and timestamp, progress (guarded by
`is not None`), the `started_at` stamp, the terminal-status block, then the
truthiness-guarded error message, outputs and processing time. -/
def applyUpdate (job : ProcessingJob) (status : String) (progress : Option Int)
    (error_message : Option String) (output_images : Option (List String))
    (processing_time : Option ℚ) (now : Nat) : ProcessingJob :=
  stepTime
    (stepOutputs
      (stepError
        (stepTerminal
          (stepStarted (stepProgress (stepStatus job status now) progress) status now)
          status now)
        error_message)
      output_images)
    processing_time

/-- `ImageService.update_job_status` (image_service.py, lines 101-154): looks
the job up by id (a missing job is logged and ignored), then applies the
mutations of `applyUpdate` and commits.  Note there is no guard on the job's
current status: the new status and progress are written unconditionally. -/
def update_job_status (jobs : List ProcessingJob) (job_id status : String)
    (progress : Option Int) (error_message : Option String)
    (output_images : Option (List String)) (processing_time : Option ℚ)
    (now : Nat) : List ProcessingJob :=
  match findJobL jobs job_id with
  | none => jobs
  | some job =>
    replaceJob jobs
      (applyUpdate job status progress error_message output_images processing_time now)

/-- `ImageService.queue_processing_job` (image_service.py, lines 83-99): the
Celery enqueue either succeeds (no state change) or raises, in which case the
job is marked `failed` with a descriptive error.  The enqueue outcome and the
exception text are explicit parameters. -/
def queue_processing_job (jobs : List ProcessingJob) (job_id : String)
    (enqueue_ok : Bool) (enqueue_error : String) (now : Nat) : List ProcessingJob :=
  if enqueue_ok then jobs
  else
    update_job_status jobs job_id "failed" none
      (some ("Failed to queue job: " ++ enqueue_error)) none none now

/-- Result of the cancel endpoint, as seen by the HTTP caller. -/
inductive CancelResult
  | ok
  | notFound
  | invalidState
deriving Repr, DecidableEq

/-- `cancel_job` (endpoints/images.py, lines 237-291): the job is looked up by
id and owner; terminal statuses are rejected; otherwise `job.status` is set to
`"cancelled"` first, and only then the refund guard `if job.status == "queued"`
is evaluated — on the already-mutated row, exactly as in the source. -/
def cancel_job (db : CreditDB) (jobs : List ProcessingJob)
    (job_id user_id : String) (now : Nat) :
    CancelResult × CreditDB × List ProcessingJob :=
  match findJobUL jobs job_id user_id with
  | none => (CancelResult.notFound, db, jobs)
  | some job =>
    if job.status == "completed" || job.status == "failed" || job.status == "cancelled" then
      (CancelResult.invalidState, db, jobs)
    else
      let job' := { job with status := "cancelled", updated_at := some now }
      let db' :=
        if job'.status == "queued" then
          (refund_credits db user_id job'.credits_used
            ("Job " ++ job_id ++ " cancelled")).2
        else db
      (CancelResult.ok, db', replaceJob jobs job')

/-- Outcome of one delivery of a job to the worker: either the transform of
every image succeeds, or some step raises. -/
inductive WorkerOutcome
  | success (outputs : List String) (duration : ℚ)
  | failure (err : String)
deriving Repr, DecidableEq

/-- Observable effects of one execution of `process_images_task`: the job rows
after the run, the webhook deliveries scheduled (job id, callback url,
status), and whether a Celery retry was scheduled. -/
structure TaskEffects where
  jobs : List ProcessingJob
  webhooks : List (String × String × String)
  retryScheduled : Bool
deriving Repr, DecidableEq

/-- `process_images_task` (image_worker.py, lines 283-386), one delivery
attempt.  The job is first marked `processing` with progress 0; on success it
is marked `completed` (progress 100, outputs and duration attached) and a
`completed` webhook is scheduled; on any exception the except-branch runs:
the job is immediately marked `failed` with the error text, a `failed` webhook
is scheduled, and `self.retry(max_retries := 3)` schedules a redelivery while
fewer than 3 retries have been consumed.  The per-image intermediate progress
writes inside the loop are elided: they only rewrite `progress` while still
`processing` and are overwritten by the terminal update. -/
def process_images_task (jobs : List ProcessingJob) (job_id : String)
    (callback_url : Option String) (outcome : WorkerOutcome)
    (retries_so_far : Nat) (now : Nat) : TaskEffects :=
  let jobs1 := update_job_status jobs job_id "processing" (some 0) none none none now
  match outcome with
  | WorkerOutcome.success outputs duration =>
    let jobs2 :=
      update_job_status jobs1 job_id "completed" (some 100) none
        (some outputs) (some duration) now
    { jobs := jobs2
      webhooks :=
        match callback_url with
        | some cb => [(job_id, cb, "completed")]
        | none => []
      retryScheduled := false }
  | WorkerOutcome.failure err =>
    let jobs2 :=
      update_job_status jobs1 job_id "failed" none
        (some ("Processing failed: " ++ err)) none none now
    { jobs := jobs2
      webhooks :=
        match callback_url with
        | some cb => [(job_id, cb, "failed")]
        | none => []
      retryScheduled := decide (retries_so_far < 3) }

/-- A value stored in the dynamic `parameters` dict.  Numeric values (Python
`int`/`float`) are exact rationals; `str` stands for any value whose
comparison with a number raises `TypeError`. -/
inductive PVal
  | num (q : ℚ)
  | str (s : String)
deriving Repr, DecidableEq

/-- The keys of the `parameters` dict read by `CreditService.calculate_cost`;
`none` means the key is absent so `dict.get` returns its default. -/
structure CostParams where
  quality : Option String := none
  upscale_factor : Option Int := none
  steps : Option PVal := none
  guidance_scale : Option PVal := none
deriving Repr, DecidableEq

/-- `dict.get(key, default)` over an association list. -/
def dictGetInt (d : List (String × Int)) (k : String) (default : Int) : Int :=
  match d.find? (fun kv => kv.1 == k) with
  | some kv => kv.2
  | none => default

/-- The default `settings.credit_costs` table (core/config.py, lines 83-89). -/
def credit_costs : List (String × Int) :=
  [("enhance_low", 1), ("enhance_medium", 2), ("enhance_high", 3),
   ("upscale_2x", 2), ("upscale_4x", 4)]

/-- Python `int(b * m)` for a float multiplier `m = num/den`: the exact
rational product truncated toward zero.  For the multipliers `1.5` and `1.2`
this agrees with IEEE-double evaluation on every base cost reachable from the
shipped cost table. -/
def truncMulDiv (b num den : Int) : Int :=
  Int.tdiv (b * num) den

/-- Python `v > c` for a dict value `v` and numeric constant `c`: `none` when
the comparison raises `TypeError` (non-numeric value). -/
def pyGtNum : PVal → ℚ → Option Bool
  | PVal.num q, c => some (decide (c < q))
  | PVal.str _, _ => none

/-- `CreditService.calculate_cost` (credit_service.py, lines 27-64): base cost
from the `(operation, quality-or-factor)` lookup (default 2 when the key is
missing, 1 for unknown operations), then the `steps > 50` multiplier `×1.5`
and the `guidance_scale > 15` multiplier `×1.2`, each truncated to `int`, then
`× image_count`.  Any exception inside the try-block (a `TypeError` from
comparing a non-numeric parameter) yields the fallback `2 * image_count`.
The float products `base * 1.5` and `base * 1.2` are modelled by
`truncMulDiv` (exact rational product truncated toward zero). -/
def calculate_cost (op_name : String) (parameters : CostParams) (image_count : Int) : Int :=
  let base0 : Int := 1
  let base1 :=
    if op_name == "enhance" then
      dictGetInt credit_costs ("enhance_" ++ parameters.quality.getD "medium") 2
    else if op_name == "upscale" then
      dictGetInt credit_costs
        ("upscale_" ++ toString (parameters.upscale_factor.getD 2) ++ "x") 2
    else base0
  match pyGtNum (parameters.steps.getD (PVal.num 20)) 50 with
  | none => 2 * image_count
  | some bigSteps =>
    let base2 := if bigSteps then truncMulDiv base1 3 2 else base1
    match pyGtNum (parameters.guidance_scale.getD (PVal.num (mkRat 15 2))) 15 with
    | none => 2 * image_count
    | some bigGuidance =>
      let base3 := if bigGuidance then truncMulDiv base2 6 5 else base2
      base3 * image_count

/-- The per-unit cost `calculate_cost` charges: the final base cost on the
normal path, the fallback per-unit cost 2 on the exception path. -/
def perUnitCost (op_name : String) (parameters : CostParams) : Int :=
  let base0 : Int := 1
  let base1 :=
    if op_name == "enhance" then
      dictGetInt credit_costs ("enhance_" ++ parameters.quality.getD "medium") 2
    else if op_name == "upscale" then
      dictGetInt credit_costs
        ("upscale_" ++ toString (parameters.upscale_factor.getD 2) ++ "x") 2
    else base0
  match pyGtNum (parameters.steps.getD (PVal.num 20)) 50 with
  | none => 2
  | some bigSteps =>
    let base2 := if bigSteps then truncMulDiv base1 3 2 else base1
    match pyGtNum (parameters.guidance_scale.getD (PVal.num (mkRat 15 2))) 15 with
    | none => 2
    | some bigGuidance =>
      if bigGuidance then truncMulDiv base2 6 5 else base2

/-- One ledger mutation, as dispatched to `CreditService`. -/
inductive LedgerOp
  | reserve (uid : String) (amount : Int)
  | refund (uid : String) (amount : Int) (reason : String)
  | purchase (uid : String) (amount : Int) (payment_id payment_method : Option String)
deriving Repr, DecidableEq

/-- Apply one ledger operation, keeping only the database state. -/
def applyOp (db : CreditDB) : LedgerOp → CreditDB
  | LedgerOp.reserve uid a => (check_and_reserve_credits db uid a).2
  | LedgerOp.refund uid a r => (refund_credits db uid a r).2
  | LedgerOp.purchase uid a pid pm => (add_credits db uid a pid pm).2

/-- Run a sequence of ledger operations. -/
def runOps (db : CreditDB) (ops : List LedgerOp) : CreditDB :=
  ops.foldl applyOp db

/-- Sum of the amounts of a user's ledger entries of one transaction type. -/
def sumTxKind (db : CreditDB) (uid kind : String) : Int :=
  (db.transactions.filter
    (fun t => t.user_id == uid && t.transaction_type == kind)).foldl
    (fun s t => s + t.amount) 0

/-- A database holding one freshly created account (config `default_credits`
is 0, and no transactions exist yet). -/
def freshDB (uid : String) : CreditDB :=
  { users := [{ id := uid, credits_balance := 0, total_credits_used := 0,
                total_credits_purchased := 0 }],
    transactions := [] }

/-- The balance bookkeeping the code actually maintains on a user row. -/
def UserInv (u : User) : Prop :=
  u.credits_balance = u.total_credits_purchased - u.total_credits_used

/-- Every user row of the database satisfies `UserInv`. -/
def DBInv (db : CreditDB) : Prop :=
  ∀ u ∈ db.users, UserInv u

theorem findUserL_some_id {l : List User} {uid : String} {u : User}
    (h : findUserL l uid = some u) : u.id = uid := by
  induction l with
  | nil => simp [findUserL] at h
  | cons v t ih =>
    rw [findUserL] at h
    split at h
    next hc =>
      cases h
      simpa using hc
    next => exact ih h

theorem findUserL_mem {l : List User} {uid : String} {u : User}
    (h : findUserL l uid = some u) : u ∈ l := by
  induction l with
  | nil => simp [findUserL] at h
  | cons v t ih =>
    rw [findUserL] at h
    split at h
    next =>
      cases h
      exact List.mem_cons_self _ _
    next => exact List.mem_cons_of_mem _ (ih h)

theorem findUserL_replace {l : List User} {uid : String} {u : User} (u' : User)
    (h : findUserL l uid = some u) (hid : u'.id = u.id) :
    findUserL (replaceUser l u') uid = some u' := by
  induction l with
  | nil => simp [findUserL] at h
  | cons v t ih =>
    rw [findUserL] at h
    rw [replaceUser, List.map_cons]
    split at h
    next hc =>
      cases h
      have hbeq : u.id = uid := by simpa using hc
      have hrep : (u.id == u'.id) = true := by simp [hid]
      have hu' : (u'.id == uid) = true := by simp [hid, hbeq]
      simp [findUserL, hrep, hu']
    next hc =>
      have huid : u.id = uid := findUserL_some_id h
      have hvne : v.id ≠ uid := by simpa using hc
      have hrep : (v.id == u'.id) = false := by
        simp only [beq_eq_false_iff_ne, hid, huid]
        exact hvne
      have hih := ih h
      simp [findUserL, hrep, hvne, replaceUser] at hih ⊢
      exact hih

theorem findJobL_some_id {l : List ProcessingJob} {jid : String} {j : ProcessingJob}
    (h : findJobL l jid = some j) : j.id = jid := by
  induction l with
  | nil => simp [findJobL] at h
  | cons v t ih =>
    rw [findJobL] at h
    split at h
    next hc =>
      cases h
      simpa using hc
    next => exact ih h

theorem findJobL_replace {l : List ProcessingJob} {jid : String} {j : ProcessingJob}
    (j' : ProcessingJob) (h : findJobL l jid = some j) (hid : j'.id = j.id) :
    findJobL (replaceJob l j') jid = some j' := by
  induction l with
  | nil => simp [findJobL] at h
  | cons v t ih =>
    rw [findJobL] at h
    rw [replaceJob, List.map_cons]
    split at h
    next hc =>
      cases h
      have hbeq : j.id = jid := by simpa using hc
      have hrep : (j.id == j'.id) = true := by simp [hid]
      have hj' : (j'.id == jid) = true := by simp [hid, hbeq]
      simp [findJobL, hrep, hj']
    next hc =>
      have hjid : j.id = jid := findJobL_some_id h
      have hvne : v.id ≠ jid := by simpa using hc
      have hrep : (v.id == j'.id) = false := by
        simp only [beq_eq_false_iff_ne, hid, hjid]
        exact hvne
      have hih := ih h
      simp [findJobL, hrep, hvne, replaceJob] at hih ⊢
      exact hih

theorem stepStatus_fields (job : ProcessingJob) (st : String) (now : Nat) :
    (stepStatus job st now).id = job.id ∧ (stepStatus job st now).status = st ∧
    (stepStatus job st now).progress = job.progress ∧
    (stepStatus job st now).error_message = job.error_message := by
  refine ⟨rfl, rfl, rfl, rfl⟩

theorem stepProgress_fields (job : ProcessingJob) (p : Option Int) :
    (stepProgress job p).id = job.id ∧ (stepProgress job p).status = job.status ∧
    (stepProgress job p).progress = p.getD job.progress ∧
    (stepProgress job p).error_message = job.error_message := by
  cases p <;> exact ⟨rfl, rfl, rfl, rfl⟩

theorem stepStarted_fields (job : ProcessingJob) (st : String) (now : Nat) :
    (stepStarted job st now).id = job.id ∧ (stepStarted job st now).status = job.status ∧
    (stepStarted job st now).progress = job.progress ∧
    (stepStarted job st now).error_message = job.error_message := by
  unfold stepStarted
  split <;> exact ⟨rfl, rfl, rfl, rfl⟩

theorem stepTerminal_fields (job : ProcessingJob) (st : String) (now : Nat) :
    (stepTerminal job st now).id = job.id ∧ (stepTerminal job st now).status = job.status ∧
    (stepTerminal job st now).progress =
      (if st == "completed" || st == "failed" then
        (if st == "completed" then 100 else job.progress) else job.progress) ∧
    (stepTerminal job st now).error_message = job.error_message := by
  unfold stepTerminal
  split <;> simp_all

theorem stepError_fields (job : ProcessingJob) (em : Option String) :
    (stepError job em).id = job.id ∧ (stepError job em).status = job.status ∧
    (stepError job em).progress = job.progress ∧
    (stepError job em).error_message =
      (match em with
       | some s => if s == "" then job.error_message else some s
       | none => job.error_message) := by
  unfold stepError
  cases em with
  | none => exact ⟨rfl, rfl, rfl, rfl⟩
  | some s =>
    dsimp only
    split <;> exact ⟨rfl, rfl, rfl, rfl⟩

theorem stepOutputs_fields (job : ProcessingJob) (oi : Option (List String)) :
    (stepOutputs job oi).id = job.id ∧ (stepOutputs job oi).status = job.status ∧
    (stepOutputs job oi).progress = job.progress ∧
    (stepOutputs job oi).error_message = job.error_message := by
  unfold stepOutputs
  cases oi with
  | none => exact ⟨rfl, rfl, rfl, rfl⟩
  | some l =>
    dsimp only
    split <;> exact ⟨rfl, rfl, rfl, rfl⟩

theorem stepTime_fields (job : ProcessingJob) (pt : Option ℚ) :
    (stepTime job pt).id = job.id ∧ (stepTime job pt).status = job.status ∧
    (stepTime job pt).progress = job.progress ∧
    (stepTime job pt).error_message = job.error_message := by
  unfold stepTime
  cases pt with
  | none => exact ⟨rfl, rfl, rfl, rfl⟩
  | some t =>
    dsimp only
    split <;> exact ⟨rfl, rfl, rfl, rfl⟩

theorem applyUpdate_id (job : ProcessingJob) (status : String) (progress : Option Int)
    (error_message : Option String) (output_images : Option (List String))
    (processing_time : Option ℚ) (now : Nat) :
    (applyUpdate job status progress error_message output_images processing_time now).id
      = job.id := by
  unfold applyUpdate
  rw [(stepTime_fields _ _).1, (stepOutputs_fields _ _).1, (stepError_fields _ _).1,
      (stepTerminal_fields _ _ _).1, (stepStarted_fields _ _ _).1,
      (stepProgress_fields _ _).1, (stepStatus_fields _ _ _).1]

theorem applyUpdate_status (job : ProcessingJob) (status : String) (progress : Option Int)
    (error_message : Option String) (output_images : Option (List String))
    (processing_time : Option ℚ) (now : Nat) :
    (applyUpdate job status progress error_message output_images processing_time now).status
      = status := by
  unfold applyUpdate
  rw [(stepTime_fields _ _).2.1, (stepOutputs_fields _ _).2.1, (stepError_fields _ _).2.1,
      (stepTerminal_fields _ _ _).2.1, (stepStarted_fields _ _ _).2.1,
      (stepProgress_fields _ _).2.1, (stepStatus_fields _ _ _).2.1]

theorem applyUpdate_progress (job : ProcessingJob) (st : String) (p : Int)
    (em : Option String) (oi : Option (List String)) (pt : Option ℚ) (now : Nat) :
    (applyUpdate job st (some p) em oi pt now).progress =
      if st == "completed" then 100 else p := by
  unfold applyUpdate
  rw [(stepTime_fields _ _).2.2.1, (stepOutputs_fields _ _).2.2.1,
      (stepError_fields _ _).2.2.1, (stepTerminal_fields _ _ _).2.2.1,
      (stepStarted_fields _ _ _).2.2.1, (stepProgress_fields _ _).2.2.1]
  cases hc : st == "completed" <;> cases hf : st == "failed" <;> simp [hc, hf]

theorem applyUpdate_error (job : ProcessingJob) (st : String) (p : Option Int)
    (s : String) (oi : Option (List String)) (pt : Option ℚ) (now : Nat)
    (hs : (s == "") = false) :
    (applyUpdate job st p (some s) oi pt now).error_message = some s := by
  unfold applyUpdate
  rw [(stepTime_fields _ _).2.2.2, (stepOutputs_fields _ _).2.2.2,
      (stepError_fields _ _).2.2.2]
  simp [hs]

theorem update_job_status_found {jobs : List ProcessingJob} {jid : String}
    {j : ProcessingJob} (st : String) (p : Option Int) (em : Option String)
    (oi : Option (List String)) (pt : Option ℚ) (now : Nat)
    (h : findJobL jobs jid = some j) :
    update_job_status jobs jid st p em oi pt now =
      replaceJob jobs (applyUpdate j st p em oi pt now) := by
  unfold update_job_status
  rw [h]

theorem findJobL_update {jobs : List ProcessingJob} {jid : String}
    {j : ProcessingJob} (st : String) (p : Option Int) (em : Option String)
    (oi : Option (List String)) (pt : Option ℚ) (now : Nat)
    (h : findJobL jobs jid = some j) :
    findJobL (update_job_status jobs jid st p em oi pt now) jid =
      some (applyUpdate j st p em oi pt now) := by
  rw [update_job_status_found st p em oi pt now h]
  exact findJobL_replace _ h (applyUpdate_id _ _ _ _ _ _ _)

theorem refund_credits_eq {db : CreditDB} {uid : String} {u : User}
    (a : Int) (r : String) (h : findUser db uid = some u) :
    refund_credits db uid a r =
      (true,
       { users := replaceUser db.users
           { u with credits_balance := u.credits_balance + a,
                    total_credits_used := u.total_credits_used - a },
         transactions := db.transactions ++
           [{ user_id := u.id, amount := a, transaction_type := "refund",
              description := r, balance_before := u.credits_balance,
              balance_after := u.credits_balance + a }] }) := by
  unfold refund_credits
  rw [h]

theorem check_and_reserve_fail_eq {db : CreditDB} {uid : String} {u : User}
    (a : Int) (h : findUser db uid = some u) (hlt : u.credits_balance < a) :
    check_and_reserve_credits db uid a = (false, db) := by
  unfold check_and_reserve_credits
  rw [h]
  simp [hlt]

theorem check_and_reserve_ok_eq {db : CreditDB} {uid : String} {u : User}
    (a : Int) (h : findUser db uid = some u) (hge : ¬u.credits_balance < a) :
    check_and_reserve_credits db uid a =
      (true,
       { users := replaceUser db.users
           { u with credits_balance := u.credits_balance - a,
                    total_credits_used := u.total_credits_used + a },
         transactions := db.transactions ++
           [{ user_id := u.id, amount := -a, transaction_type := "usage",
              description := "Credits reserved for image processing",
              balance_before := u.credits_balance,
              balance_after := u.credits_balance - a }] }) := by
  unfold check_and_reserve_credits
  rw [h]
  simp [hge]

theorem inv_replaceUser {l : List User} {u' : User} (h : ∀ u ∈ l, UserInv u)
    (h' : UserInv u') : ∀ u ∈ replaceUser l u', UserInv u := by
  intro u hu
  obtain ⟨v, hv, rfl⟩ := List.mem_map.mp hu
  by_cases hcase : (v.id == u'.id) = true
  · simpa [hcase] using h'
  · simpa [hcase] using h v hv

theorem inv_applyOp {db : CreditDB} (h : DBInv db) (op : LedgerOp) :
    DBInv (applyOp db op) := by
  cases op with
  | reserve uid a =>
    show DBInv (check_and_reserve_credits db uid a).2
    unfold check_and_reserve_credits
    cases hf : findUser db uid with
    | none => exact h
    | some u =>
      dsimp only
      split
      · exact h
      · intro v hv
        refine inv_replaceUser h ?_ v hv
        have hu := h u (findUserL_mem hf)
        unfold UserInv at hu ⊢
        dsimp only
        omega
  | refund uid a r =>
    show DBInv (refund_credits db uid a r).2
    unfold refund_credits
    cases hf : findUser db uid with
    | none => exact h
    | some u =>
      intro v hv
      refine inv_replaceUser h ?_ v hv
      have hu := h u (findUserL_mem hf)
      unfold UserInv at hu ⊢
      dsimp only
      omega
  | purchase uid a pid pm =>
    show DBInv (add_credits db uid a pid pm).2
    unfold add_credits
    cases hf : findUser db uid with
    | none => exact h
    | some u =>
      intro v hv
      refine inv_replaceUser h ?_ v hv
      have hu := h u (findUserL_mem hf)
      unfold UserInv at hu ⊢
      dsimp only
      omega

theorem inv_runOps {db : CreditDB} (h : DBInv db) (ops : List LedgerOp) :
    DBInv (runOps db ops) := by
  induction ops generalizing db with
  | nil => exact h
  | cons op rest ih => exact ih (inv_applyOp h op)

theorem inv_freshDB (uid : String) : DBInv (freshDB uid) := by
  intro v hv
  simp only [freshDB, List.mem_singleton] at hv
  subst hv
  unfold UserInv
  rfl

/-- A sample account used to instantiate hypotheses: balance 8 after having
purchased 10 credits and reserved 2. -/
def sampleUser : User :=
  { id := "u", credits_balance := 8, total_credits_used := 2,
    total_credits_purchased := 10 }

/-- Credit database holding only `sampleUser`. -/
def sampleDB : CreditDB := { users := [sampleUser], transactions := [] }

/-- C3: `check_and_reserve_credits` fails, leaving account and ledger
unchanged, exactly when the requested amount exceeds the balance; otherwise it
debits the balance, increments `total_credits_used`, appends a `usage` entry
recording `balance_before` and `balance_after = balance_before - amount`, and
the new balance is never negative. -/
theorem reserve_fails_iff_insufficient (db : CreditDB) (uid : String) (a : Int)
    (u : User) (hfind : findUser db uid = some u) (ha : 0 ≤ a) :
    ((check_and_reserve_credits db uid a).1 = false ↔ u.credits_balance < a) ∧
    (u.credits_balance < a → (check_and_reserve_credits db uid a).2 = db) ∧
    (a ≤ u.credits_balance →
      (check_and_reserve_credits db uid a).1 = true ∧
      findUser (check_and_reserve_credits db uid a).2 uid =
        some { u with credits_balance := u.credits_balance - a,
                      total_credits_used := u.total_credits_used + a } ∧
      0 ≤ u.credits_balance - a ∧
      (check_and_reserve_credits db uid a).2.transactions =
        db.transactions ++
          [{ user_id := u.id, amount := -a, transaction_type := "usage",
             description := "Credits reserved for image processing",
             balance_before := u.credits_balance,
             balance_after := u.credits_balance - a }]) := by
  by_cases hlt : u.credits_balance < a
  · rw [check_and_reserve_fail_eq a hfind hlt]
    exact ⟨by simpa using hlt, fun _ => rfl,
      fun hle => absurd hle (not_le.mpr hlt)⟩
  · rw [check_and_reserve_ok_eq a hfind hlt]
    refine ⟨by simpa using hlt, fun hcon => absurd hcon hlt, fun hle => ?_⟩
    refine ⟨rfl, ?_, by omega, rfl⟩
    exact findUserL_replace _ hfind rfl

/-- Witness for C3 at a concrete account: reserving 2 of a balance of 8. -/
theorem reserve_fails_iff_insufficient_witness :
    findUser sampleDB "u" = some sampleUser ∧ (0 : Int) ≤ 2 ∧
    (((check_and_reserve_credits sampleDB "u" 2).1 = false ↔
        sampleUser.credits_balance < 2) ∧
     (sampleUser.credits_balance < 2 →
        (check_and_reserve_credits sampleDB "u" 2).2 = sampleDB) ∧
     (2 ≤ sampleUser.credits_balance →
       (check_and_reserve_credits sampleDB "u" 2).1 = true ∧
       findUser (check_and_reserve_credits sampleDB "u" 2).2 "u" =
         some { sampleUser with
                  credits_balance := sampleUser.credits_balance - 2,
                  total_credits_used := sampleUser.total_credits_used + 2 } ∧
       0 ≤ sampleUser.credits_balance - 2 ∧
       (check_and_reserve_credits sampleDB "u" 2).2.transactions =
         sampleDB.transactions ++
           [{ user_id := sampleUser.id, amount := -2, transaction_type := "usage",
              description := "Credits reserved for image processing",
              balance_before := sampleUser.credits_balance,
              balance_after := sampleUser.credits_balance - 2 }])) :=
  ⟨rfl, by decide,
   reserve_fails_iff_insufficient sampleDB "u" 2 sampleUser rfl (by decide)⟩

/-- C10: `refund_credits` puts no bound on the refunded amount: for any
existing user it succeeds, credits the balance by the full amount and
decrements `total_credits_used` by it, so a refund exceeding the total
previously used drives `total_credits_used` negative. -/
theorem refund_credits_unbounded (db : CreditDB) (uid r : String) (a : Int)
    (u : User) (h : findUser db uid = some u) :
    (refund_credits db uid a r).1 = true ∧
    findUser (refund_credits db uid a r).2 uid =
      some { u with credits_balance := u.credits_balance + a,
                    total_credits_used := u.total_credits_used - a } ∧
    (u.total_credits_used < a → u.total_credits_used - a < 0) := by
  rw [refund_credits_eq a r h]
  exact ⟨rfl, findUserL_replace _ h rfl, fun hlt => by omega⟩

/-- Witness for C10: refunding 5 credits to an account that only ever used 2
leaves `total_credits_used = -3`. -/
theorem refund_credits_unbounded_witness :
    findUser sampleDB "u" = some sampleUser ∧
    ((refund_credits sampleDB "u" 5 "job-9").1 = true ∧
     findUser (refund_credits sampleDB "u" 5 "job-9").2 "u" =
       some { sampleUser with
                credits_balance := sampleUser.credits_balance + 5,
                total_credits_used := sampleUser.total_credits_used - 5 } ∧
     (sampleUser.total_credits_used < 5 → sampleUser.total_credits_used - 5 < 0)) :=
  ⟨rfl, refund_credits_unbounded sampleDB "u" "job-9" 5 sampleUser rfl⟩

/-- Number of `refund` ledger entries of one user carrying one reason. -/
def countRefunds (db : CreditDB) (uid r : String) : Nat :=
  (db.transactions.filter
    (fun t => t.user_id == uid && t.transaction_type == "refund"
      && t.description == r)).length

/-- The database after refunding 2 credits to `sampleUser` twice with the
originating job id as the reason both times. -/
def afterTwoRefunds : CreditDB :=
  (refund_credits (refund_credits sampleDB "u" 2 "job-42").2 "u" 2 "job-42").2

/-- C1 counterexample: two `refund_credits` calls with the same reason
(job id) credit the account twice — the balance goes 8 → 12, not 8 → 10, and
two distinct refund entries are appended. -/
theorem refund_twice_double_credits :
    findUser afterTwoRefunds "u" =
      some { id := "u", credits_balance := 12, total_credits_used := -2,
             total_credits_purchased := 10 } ∧
    countRefunds afterTwoRefunds "u" "job-42" = 2 := by
  exact ⟨rfl, rfl⟩

/-- C1 (amended): `refund_credits` is not idempotent — every call on an
existing user credits the balance and appends a fresh refund entry regardless
of any earlier refund with the same reason, so two calls with the same job id
credit twice and add two entries. -/
theorem refund_not_idempotent (db : CreditDB) (uid r : String) (a : Int)
    (u : User) (h : findUser db uid = some u) :
    findUser (refund_credits (refund_credits db uid a r).2 uid a r).2 uid =
      some { u with credits_balance := u.credits_balance + a + a,
                    total_credits_used := u.total_credits_used - a - a } ∧
    countRefunds (refund_credits (refund_credits db uid a r).2 uid a r).2 uid r =
      countRefunds db uid r + 2 := by
  have hid : u.id = uid := findUserL_some_id h
  have hf1 : findUser (refund_credits db uid a r).2 uid =
      some { u with credits_balance := u.credits_balance + a,
                    total_credits_used := u.total_credits_used - a } := by
    rw [refund_credits_eq a r h]
    exact findUserL_replace _ h rfl
  constructor
  · rw [refund_credits_eq a r hf1]
    exact findUserL_replace _ hf1 rfl
  · unfold countRefunds
    rw [refund_credits_eq a r hf1, refund_credits_eq a r h]
    simp [List.filter_append, hid]

/-- Witness for C1's amended statement at the sample account. -/
theorem refund_not_idempotent_witness :
    findUser sampleDB "u" = some sampleUser ∧
    (findUser (refund_credits (refund_credits sampleDB "u" 2 "job-42").2
        "u" 2 "job-42").2 "u" =
      some { sampleUser with
               credits_balance := sampleUser.credits_balance + 2 + 2,
               total_credits_used := sampleUser.total_credits_used - 2 - 2 } ∧
     countRefunds (refund_credits (refund_credits sampleDB "u" 2 "job-42").2
        "u" 2 "job-42").2 "u" "job-42" =
      countRefunds sampleDB "u" "job-42" + 2) :=
  ⟨rfl, refund_not_idempotent sampleDB "u" "job-42" 2 sampleUser rfl⟩

/-- The user row `ledger_formula_counterexample` ends with. -/
def c4FinalUser : User :=
  { id := "u", credits_balance := 10, total_credits_used := 0,
    total_credits_purchased := 10 }

/-- Purchase 10 credits, reserve 2 for a job, then refund the 2 when the job
is cancelled. -/
def c4Ops : List LedgerOp :=
  [LedgerOp.purchase "u" 10 none none, LedgerOp.reserve "u" 2,
   LedgerOp.refund "u" 2 "job-7"]

/-- C4 counterexample: after purchase 10 / reserve 2 / refund 2 on a fresh
account the balance is 10, `total_purchased` 10, `total_used` 0, and the sum
of refund entries is 2 — so `total_purchased - total_used + Σ(refunds) +
Σ(bonuses) = 12 ≠ 10`.  The refund already restored `total_used`, so adding a
separate refund term double-counts it. -/
theorem ledger_formula_counterexample :
    findUser (runOps (freshDB "u") c4Ops) "u" = some c4FinalUser ∧
    sumTxKind (runOps (freshDB "u") c4Ops) "u" "refund" = 2 ∧
    sumTxKind (runOps (freshDB "u") c4Ops) "u" "bonus" = 0 ∧
    ¬c4FinalUser.credits_balance =
        c4FinalUser.total_credits_purchased - c4FinalUser.total_credits_used
          + sumTxKind (runOps (freshDB "u") c4Ops) "u" "refund"
          + sumTxKind (runOps (freshDB "u") c4Ops) "u" "bonus" := by
  exact ⟨rfl, rfl, rfl, by decide⟩

/-- C4 (amended): the invariant the code maintains is
`balance = total_purchased - total_used` (with no separate refund/bonus
terms): every user row of a fresh account database still satisfies it after
any sequence of reserve / refund / purchase operations, because
`refund_credits` credits the balance by decrementing `total_credits_used`
rather than adding an independent refund term, and no bonus operation exists. -/
theorem balance_eq_purchased_minus_used (ops : List LedgerOp) (uid uid' : String)
    (u : User) (h : findUser (runOps (freshDB uid) ops) uid' = some u) :
    u.credits_balance = u.total_credits_purchased - u.total_credits_used :=
  inv_runOps (inv_freshDB uid) ops u (findUserL_mem h)

/-- Witness for C4's amended statement on the purchase/reserve/refund run. -/
theorem balance_eq_purchased_minus_used_witness :
    findUser (runOps (freshDB "u") c4Ops) "u" = some c4FinalUser ∧
    c4FinalUser.credits_balance =
      c4FinalUser.total_credits_purchased - c4FinalUser.total_credits_used :=
  ⟨rfl, balance_eq_purchased_minus_used c4Ops "u" "u" c4FinalUser rfl⟩

/-- A job that finished successfully: terminal status `completed`. -/
def completedJob : ProcessingJob :=
  { id := "j1", user_id := "u", job_operation := "enhance", status := "completed",
    progress := 100, credits_used := 2, started_at := some 1,
    completed_at := some 2, updated_at := some 2 }

/-- C5 counterexample: a status/progress update delivered after the job is
`completed` is applied, not discarded — the terminal job is dragged back to
`processing` with progress 50. -/
theorem terminal_update_overwrites :
    update_job_status [completedJob] "j1" "processing" (some 50) none none none 3 =
      [{ completedJob with status := "processing", progress := 50,
                            updated_at := some 3 }] := by
  rfl

/-- C5 (amended): `update_job_status` has no terminal-state guard — for a job
in any current status, terminal ones included, a delivered update overwrites
the status unconditionally and the progress with the delivered value (forced
to 100 only when the new status is `completed`); no error is raised. -/
theorem update_job_status_no_terminal_guard (jobs : List ProcessingJob)
    (jid st : String) (p : Int) (now : Nat) (j : ProcessingJob)
    (hfind : findJobL jobs jid = some j)
    (hterm : j.status = "completed" ∨ j.status = "failed" ∨ j.status = "cancelled") :
    findJobL (update_job_status jobs jid st (some p) none none none now) jid =
      some (applyUpdate j st (some p) none none none now) ∧
    (applyUpdate j st (some p) none none none now).status = st ∧
    (applyUpdate j st (some p) none none none now).progress =
      (if st == "completed" then 100 else p) :=
  ⟨findJobL_update st (some p) none none none now hfind,
   applyUpdate_status j st (some p) none none none now,
   applyUpdate_progress j st p none none none now⟩

/-- Witness for C5's amended statement: the completed job dragged back to
`processing`. -/
theorem update_job_status_no_terminal_guard_witness :
    findJobL [completedJob] "j1" = some completedJob ∧
    (completedJob.status = "completed" ∨ completedJob.status = "failed" ∨
      completedJob.status = "cancelled") ∧
    (findJobL (update_job_status [completedJob] "j1" "processing" (some 50)
        none none none 3) "j1" =
      some (applyUpdate completedJob "processing" (some 50) none none none 3) ∧
     (applyUpdate completedJob "processing" (some 50) none none none 3).status =
       "processing" ∧
     (applyUpdate completedJob "processing" (some 50) none none none 3).progress =
       (if "processing" == "completed" then 100 else 50)) :=
  ⟨rfl, Or.inl rfl,
   update_job_status_no_terminal_guard [completedJob] "j1" "processing" 50 3
     completedJob rfl (Or.inl rfl)⟩

/-- A job currently being worked on. -/
def processingJob : ProcessingJob :=
  { id := "j2", user_id := "u", job_operation := "enhance", status := "processing",
    progress := 40, credits_used := 2, started_at := some 1, updated_at := some 1 }

/-- C6 counterexample: cancelling a `processing` job does not return the
invalid-state error — it succeeds and flips the job to `cancelled` (with no
refund, the credit database is returned unchanged). -/
theorem cancel_processing_succeeds :
    cancel_job sampleDB [processingJob] "j2" "u" 5 =
      (CancelResult.ok, sampleDB,
       [{ processingJob with status := "cancelled", updated_at := some 5 }]) := by
  rfl

/-- C6 (amended): `cancel_job` rejects with `InvalidState` (leaving job and
ledger unchanged) only when the job is already terminal; a `processing` job is
cancelled exactly like a queued one — status set to `cancelled`, and no refund
is issued since the refund guard reads the already-mutated status. -/
theorem cancel_rejects_only_terminal (db : CreditDB) (jobs : List ProcessingJob)
    (jid uid : String) (now : Nat) (j : ProcessingJob)
    (hfind : findJobUL jobs jid uid = some j) :
    (j.status = "completed" ∨ j.status = "failed" ∨ j.status = "cancelled" →
      cancel_job db jobs jid uid now = (CancelResult.invalidState, db, jobs)) ∧
    (j.status = "processing" →
      cancel_job db jobs jid uid now =
        (CancelResult.ok, db,
         replaceJob jobs { j with status := "cancelled", updated_at := some now })) := by
  unfold cancel_job
  rw [hfind]
  constructor
  · intro hterm
    have hc : (j.status == "completed" || j.status == "failed"
        || j.status == "cancelled") = true := by
      rcases hterm with h | h | h <;> simp [h]
    simp only [hc, if_true]
  · intro hproc
    have hc : (j.status == "completed" || j.status == "failed"
        || j.status == "cancelled") = false := by
      simp [hproc]
    have hq : (("cancelled" : String) == "queued") = false := by decide
    simp only [hc, hq, Bool.false_eq_true, if_false]

/-- Witness for C6's amended statement at the in-flight sample job. -/
theorem cancel_rejects_only_terminal_witness :
    findJobUL [processingJob] "j2" "u" = some processingJob ∧
    processingJob.status = "processing" ∧
    ((processingJob.status = "completed" ∨ processingJob.status = "failed" ∨
        processingJob.status = "cancelled" →
      cancel_job sampleDB [processingJob] "j2" "u" 5 =
        (CancelResult.invalidState, sampleDB, [processingJob])) ∧
     (processingJob.status = "processing" →
      cancel_job sampleDB [processingJob] "j2" "u" 5 =
        (CancelResult.ok, sampleDB,
         replaceJob [processingJob]
           { processingJob with status := "cancelled", updated_at := some 5 }))) :=
  ⟨rfl, rfl,
   cancel_rejects_only_terminal sampleDB [processingJob] "j2" "u" 5
     processingJob rfl⟩

/-- A job still waiting in the queue, funded by a 2-credit reservation. -/
def queuedJob : ProcessingJob :=
  { id := "j3", user_id := "u", job_operation := "enhance", status := "queued",
    progress := 0, credits_used := 2 }

/-- C2: evaluating `cancel_job` on a queued job funded by 2 reserved credits.
The endpoint sets `job.status = "cancelled"` before evaluating the refund
guard `if job.status == "queued"`, so the guard is false by construction: the
call returns ok and the job becomes `cancelled`, but the credit database is
returned untouched — balance stays 8 instead of returning to 10 and no refund
entry is appended. -/
theorem cancel_queued_skips_refund :
    cancel_job sampleDB [queuedJob] "j3" "u" 7 =
      (CancelResult.ok, sampleDB,
       [{ queuedJob with status := "cancelled", updated_at := some 7 }]) ∧
    findUser sampleDB "u" = some sampleUser ∧
    sampleUser.credits_balance = 8 ∧
    sampleDB.transactions = [] := by
  exact ⟨rfl, rfl, rfl, rfl⟩

theorem string_append_beq_empty (s t : String) (h : s.length ≠ 0) :
    ((s ++ t) == "") = false := by
  simp only [beq_eq_false_iff_ne]
  intro hcon
  have hlen := congrArg String.length hcon
  rw [String.length_append] at hlen
  have h0 : ("" : String).length = 0 := rfl
  rw [h0] at hlen
  omega

/-- C9: `queue_processing_job` either enqueues (leaving the job rows alone) or,
when the Celery enqueue raises, immediately marks the job `failed` with the
descriptive error `Failed to queue job: <exception>` — the job does not remain
`queued` with no in-flight task. -/
theorem queue_failure_marks_failed (jobs : List ProcessingJob) (jid e : String)
    (now : Nat) (j : ProcessingJob) (hfind : findJobL jobs jid = some j) :
    queue_processing_job jobs jid true e now = jobs ∧
    findJobL (queue_processing_job jobs jid false e now) jid =
      some (applyUpdate j "failed" none (some ("Failed to queue job: " ++ e))
        none none now) ∧
    (applyUpdate j "failed" none (some ("Failed to queue job: " ++ e))
        none none now).status = "failed" ∧
    (applyUpdate j "failed" none (some ("Failed to queue job: " ++ e))
        none none now).error_message = some ("Failed to queue job: " ++ e) := by
  refine ⟨rfl, ?_, applyUpdate_status _ _ _ _ _ _ _, ?_⟩
  · exact findJobL_update "failed" none
      (some ("Failed to queue job: " ++ e)) none none now hfind
  · exact applyUpdate_error j "failed" none _ none none now
      (string_append_beq_empty _ e (by decide))

/-- Witness for C9: an enqueue failure for the queued sample job. -/
theorem queue_failure_marks_failed_witness :
    findJobL [queuedJob] "j3" = some queuedJob ∧
    (queue_processing_job [queuedJob] "j3" true "broker down" 4 = [queuedJob] ∧
     findJobL (queue_processing_job [queuedJob] "j3" false "broker down" 4) "j3" =
       some (applyUpdate queuedJob "failed" none
         (some ("Failed to queue job: " ++ "broker down")) none none 4) ∧
     (applyUpdate queuedJob "failed" none
         (some ("Failed to queue job: " ++ "broker down")) none none 4).status =
       "failed" ∧
     (applyUpdate queuedJob "failed" none
         (some ("Failed to queue job: " ++ "broker down")) none none 4).error_message =
       some ("Failed to queue job: " ++ "broker down")) :=
  ⟨rfl, queue_failure_marks_failed [queuedJob] "j3" "broker down" 4 queuedJob rfl⟩

/-- A queued job that reserved 4 credits, about to be delivered to a worker
that will fail. -/
def c7Job : ProcessingJob :=
  { id := "j4", user_id := "u", job_operation := "upscale", status := "queued",
    progress := 0, credits_used := 4 }

/-- C7 counterexample: on the very first failed attempt — with all 3 retries
still remaining — the worker does not leave the job `processing`: it
immediately marks it `failed` with the error populated, schedules the failure
webhook, and only then schedules the retry.  The claim's "no Job Store action
while retries remain / Notifier invoked exactly once" is violated on attempt
one. -/
theorem worker_first_failure_marks_failed :
    process_images_task [c7Job] "j4" (some "https://cb.example")
        (WorkerOutcome.failure "boom") 0 9 =
      { jobs := [{ c7Job with status := "failed", started_at := some 9,
                              completed_at := some 9, updated_at := some 9,
                              error_message := some "Processing failed: boom" }],
        webhooks := [("j4", "https://cb.example", "failed")],
        retryScheduled := true } := by
  rfl

/-- C7 (amended): every failed delivery attempt — not just the one that
exhausts the 3-retry cap — immediately transitions the job to `failed` with
the error message populated and schedules exactly one `failed` webhook for
that attempt; a further retry is scheduled while fewer than 3 retries have
been consumed. -/
theorem worker_failure_marks_failed_each_attempt (jobs : List ProcessingJob)
    (jid cb err : String) (n now : Nat) (j : ProcessingJob)
    (hfind : findJobL jobs jid = some j) :
    (process_images_task jobs jid (some cb) (WorkerOutcome.failure err) n now).webhooks
        = [(jid, cb, "failed")] ∧
    (process_images_task jobs jid (some cb) (WorkerOutcome.failure err) n now).retryScheduled
        = decide (n < 3) ∧
    findJobL (process_images_task jobs jid (some cb)
        (WorkerOutcome.failure err) n now).jobs jid =
      some (applyUpdate (applyUpdate j "processing" (some 0) none none none now)
        "failed" none (some ("Processing failed: " ++ err)) none none now) ∧
    (applyUpdate (applyUpdate j "processing" (some 0) none none none now)
        "failed" none (some ("Processing failed: " ++ err)) none none now).status
      = "failed" ∧
    (applyUpdate (applyUpdate j "processing" (some 0) none none none now)
        "failed" none (some ("Processing failed: " ++ err)) none none now).error_message
      = some ("Processing failed: " ++ err) := by
  have hf1 : findJobL (update_job_status jobs jid "processing" (some 0)
      none none none now) jid =
      some (applyUpdate j "processing" (some 0) none none none now) :=
    findJobL_update "processing" (some 0) none none none now hfind
  refine ⟨rfl, rfl, ?_, applyUpdate_status _ _ _ _ _ _ _, ?_⟩
  · exact findJobL_update "failed" none
      (some ("Processing failed: " ++ err)) none none now hf1
  · exact applyUpdate_error _ "failed" none _ none none now
      (string_append_beq_empty _ err (by decide))

/-- Witness for C7's amended statement: first failed attempt on the sample
job. -/
theorem worker_failure_marks_failed_each_attempt_witness :
    findJobL [c7Job] "j4" = some c7Job ∧
    ((process_images_task [c7Job] "j4" (some "https://cb.example")
        (WorkerOutcome.failure "boom") 0 9).webhooks
        = [("j4", "https://cb.example", "failed")] ∧
     (process_images_task [c7Job] "j4" (some "https://cb.example")
        (WorkerOutcome.failure "boom") 0 9).retryScheduled = decide (0 < 3) ∧
     findJobL (process_images_task [c7Job] "j4" (some "https://cb.example")
        (WorkerOutcome.failure "boom") 0 9).jobs "j4" =
       some (applyUpdate (applyUpdate c7Job "processing" (some 0) none none none 9)
         "failed" none (some ("Processing failed: " ++ "boom")) none none 9) ∧
     (applyUpdate (applyUpdate c7Job "processing" (some 0) none none none 9)
         "failed" none (some ("Processing failed: " ++ "boom")) none none 9).status
       = "failed" ∧
     (applyUpdate (applyUpdate c7Job "processing" (some 0) none none none 9)
         "failed" none (some ("Processing failed: " ++ "boom")) none none 9).error_message
       = some ("Processing failed: " ++ "boom")) :=
  ⟨rfl, worker_failure_marks_failed_each_attempt [c7Job] "j4" "https://cb.example"
    "boom" 0 9 c7Job rfl⟩

theorem one_le_dictGet (k : String) : 1 ≤ dictGetInt credit_costs k 2 := by
  unfold dictGetInt
  cases h : List.find? (fun kv => kv.1 == k) credit_costs with
  | none => exact one_le_two
  | some kv =>
    have hmem := List.mem_of_find?_eq_some h
    dsimp only
    simp only [credit_costs, List.mem_cons, List.not_mem_nil, or_false] at hmem
    rcases hmem with rfl | rfl | rfl | rfl | rfl <;> norm_num

theorem one_le_truncMulDiv {b : Int} (hb : 1 ≤ b) {m d : Int} (hm : d ≤ m)
    (hd : 0 < d) : 1 ≤ truncMulDiv b m d := by
  unfold truncMulDiv
  have h0 : 0 ≤ b * m := by nlinarith
  rw [Int.tdiv_eq_ediv h0 (le_of_lt hd)]
  rw [Int.le_ediv_iff_mul_le hd]
  nlinarith

theorem one_le_costChain {b1 : Int} (h : 1 ≤ b1) (c1 c2 : Bool) :
    1 ≤ (if c2 then truncMulDiv (if c1 then truncMulDiv b1 3 2 else b1) 6 5
         else (if c1 then truncMulDiv b1 3 2 else b1)) := by
  have h2 : 1 ≤ (if c1 then truncMulDiv b1 3 2 else b1) := by
    cases c1 with
    | false => simpa using h
    | true => simpa using one_le_truncMulDiv h (by norm_num) (by norm_num)
  cases c2 with
  | false => simpa using h2
  | true => simpa using one_le_truncMulDiv h2 (by norm_num) (by norm_num)

theorem one_le_perUnitCost (op_name : String) (p : CostParams) :
    1 ≤ perUnitCost op_name p := by
  unfold perUnitCost
  have hbase : 1 ≤ (if op_name == "enhance" then
      dictGetInt credit_costs ("enhance_" ++ p.quality.getD "medium") 2
    else if op_name == "upscale" then
      dictGetInt credit_costs
        ("upscale_" ++ toString (p.upscale_factor.getD 2) ++ "x") 2
    else (1 : Int)) := by
    split
    · exact one_le_dictGet _
    · split
      · exact one_le_dictGet _
      · exact le_refl 1
  cases hs : p.steps.getD (PVal.num 20) with
  | str s => exact one_le_two
  | num q =>
    dsimp only [pyGtNum]
    cases hg : p.guidance_scale.getD (PVal.num (mkRat 15 2)) with
    | str s2 => exact one_le_two
    | num q2 =>
      dsimp only [pyGtNum]
      exact one_le_costChain hbase (decide (50 < q)) (decide (15 < q2))

/-- C8: `calculate_cost` always decomposes as a per-unit cost times the image
count; the per-unit cost (base table lookup followed by the ordered, truncated
step and guidance multipliers) is at least 1 credit; and whenever the `steps`
or `guidance_scale` parameter is non-numeric (the comparison raises inside the
try-block) the function returns the fixed conservative fallback of 2 credits
per unit instead of raising. -/
theorem calculate_cost_per_unit (op_name : String) (p : CostParams) (n : Int) :
    calculate_cost op_name p n = perUnitCost op_name p * n ∧
    1 ≤ perUnitCost op_name p ∧
    calculate_cost op_name { p with steps := some (PVal.str "bad") } n = 2 * n ∧
    calculate_cost op_name { p with guidance_scale := some (PVal.str "bad") } n
      = 2 * n := by
  refine ⟨?_, one_le_perUnitCost op_name p, rfl, ?_⟩
  · unfold calculate_cost perUnitCost
    cases hs : p.steps.getD (PVal.num 20) with
    | str s => rfl
    | num q =>
      dsimp only [pyGtNum]
      cases hg : p.guidance_scale.getD (PVal.num (mkRat 15 2)) with
      | str s2 => rfl
      | num q2 => rfl
  · unfold calculate_cost
    cases hs : p.steps with
    | none => rfl
    | some v => cases v <;> rfl

end SmUp
